import Mathlib

/-!
Verification of the RX8900 real-time-clock driver (src/src/lib.rs).

The driver talks to the chip over a byte-addressed bus.  We model the bus as a
register file (`Nat → Nat`, holding byte values), a transaction counter
(`tick`), and a failure schedule (`failAt`): transaction number `n` fails with
transport error `e` exactly when `failAt n = some e`.  A failed transaction
leaves the register file and the counter unchanged, mirroring a simulated
transport whose Nth call returns an error without touching the device.

Driver operations are shallowly embedded as state-passing functions
`Bus → Except Nat α × Bus`; `Except.error e` is the transport error `E`
propagated verbatim by the `?` operator in the source.

The Rust `todo!()` in `from_week` and the `.unwrap()` panic in `datetime` are
modelled with `Option`: `none` stands for the panic / unreachable arm.
-/

namespace Rx8900

/-- Days of the week, mirroring the calendar collaborator's `Weekday` type
(Sunday through Saturday). -/
inductive Weekday where
  | sun | mon | tue | wed | thu | fri | sat
deriving DecidableEq

/-- Register map of the RX8900 (src/src/lib.rs lines 13-47). -/
inductive RegisterTable where
  | CompatibleSEC
  | CompatibleMIN
  | CompatibleHOUR
  | CompatibleWEEK
  | CompatibleDAY
  | CompatibleMONTH
  | CompatibleYEAR
  | CompatibleRAM
  | CompatibleMinAlarm
  | CompatibleHourAlarm
  | CompatibleWeekDayAlarm
  | CompatibleTimerCounter0
  | CompatibleTimerCounter1
  | CompatibleExtensionRegister
  | CompatibleFlagRegister
  | CompatibleControlRegister
  | ExtendedSEC
  | ExtendedMIN
  | ExtendedHOUR
  | ExtendedWEEK
  | ExtendedDAY
  | ExtendedMONTH
  | ExtendedYEAR
  | ExtendedTEMP
  | ExtendedBackupFunction
  | ExtendedTimerCounter0
  | ExtendedTimerCounter1
  | ExtendedExtensionRegister
  | ExtendedFlagRegister
  | ExtendedControlRegister
deriving DecidableEq

/-- Numeric address of each register (the enum discriminants in the source). -/
def RegisterTable.toNat : RegisterTable → Nat
  | .CompatibleSEC => 0x00
  | .CompatibleMIN => 0x01
  | .CompatibleHOUR => 0x02
  | .CompatibleWEEK => 0x03
  | .CompatibleDAY => 0x04
  | .CompatibleMONTH => 0x05
  | .CompatibleYEAR => 0x06
  | .CompatibleRAM => 0x07
  | .CompatibleMinAlarm => 0x08
  | .CompatibleHourAlarm => 0x09
  | .CompatibleWeekDayAlarm => 0x0A
  | .CompatibleTimerCounter0 => 0x0B
  | .CompatibleTimerCounter1 => 0x0C
  | .CompatibleExtensionRegister => 0x0D
  | .CompatibleFlagRegister => 0x0E
  | .CompatibleControlRegister => 0x0F
  | .ExtendedSEC => 0x10
  | .ExtendedMIN => 0x11
  | .ExtendedHOUR => 0x12
  | .ExtendedWEEK => 0x13
  | .ExtendedDAY => 0x14
  | .ExtendedMONTH => 0x15
  | .ExtendedYEAR => 0x16
  | .ExtendedTEMP => 0x17
  | .ExtendedBackupFunction => 0x18
  | .ExtendedTimerCounter0 => 0x1B
  | .ExtendedTimerCounter1 => 0x1C
  | .ExtendedExtensionRegister => 0x1D
  | .ExtendedFlagRegister => 0x1E
  | .ExtendedControlRegister => 0x1F

/-- Fout output frequency (src lines 74-79); the `0b11` wire code also decodes
to the 32.768 kHz variant, which is why the enum has only three variants. -/
inductive FoutFrequency where
  | FoutFrequency32_768kHz
  | FoutFrequency1024Hz
  | FoutFrequency1Hz
deriving DecidableEq

/-- Enum discriminant of `FoutFrequency` (the `as u8` cast in the source). -/
def FoutFrequency.toNat : FoutFrequency → Nat
  | .FoutFrequency32_768kHz => 0b00
  | .FoutFrequency1024Hz => 0b01
  | .FoutFrequency1Hz => 0b10

/-- `from_bcd` (src line 105): `(data >> 4) * 10 + (data & 0x0F)`.
For byte input the result is at most 165, so no u8 wrap is needed. -/
def from_bcd (data : Nat) : Nat :=
  (data >>> 4) * 10 + (data &&& 0x0F)

/-- `to_bcd` (src line 110): `((data / 10) << 4) | (data % 10)` in u8
arithmetic; the `% 256` models the wrap of the u8 shift-left. -/
def to_bcd (data : Nat) : Nat :=
  (((data / 10) <<< 4) % 256) ||| (data % 10)

/-- `from_week` (src lines 115-126): one-hot byte to weekday; the `todo!()`
placeholder arm (a panic) is modelled as `none`. -/
def from_week (data : Nat) : Option Weekday :=
  match data with
  | 0b00000001 => some .sun
  | 0b00000010 => some .mon
  | 0b00000100 => some .tue
  | 0b00001000 => some .wed
  | 0b00010000 => some .thu
  | 0b00100000 => some .fri
  | 0b01000000 => some .sat
  | _ => none

/-- `to_week` (src lines 129-139): weekday to one-hot byte. -/
def to_week : Weekday → Nat
  | .sun => 0b00000001
  | .mon => 0b00000010
  | .tue => 0b00000100
  | .wed => 0b00001000
  | .thu => 0b00010000
  | .fri => 0b00100000
  | .sat => 0b01000000

/-- Number of set bits among bits 0-6 of a byte (used to state the one-hot
precondition of the weekday codec). -/
def countBits7 (b : Nat) : Nat :=
  ((List.range 7).filter (fun i => b.testBit i)).length

/-- The simulated bus: a byte register file, a transaction counter, and a
failure schedule for the transport. -/
structure Bus where
  regs : Nat → Nat
  tick : Nat
  failAt : Nat → Option Nat

/-- A transport that never fails. -/
def noFail : Nat → Option Nat := fun _ => none

/-- A transport whose transaction number `n` fails with error `e` and all
other transactions succeed. -/
def failOnlyAt (n e : Nat) : Nat → Option Nat :=
  fun m => if m = n then some e else none

/-- Point update of a register file. -/
def updateReg (r : Nat → Nat) (a v : Nat) : Nat → Nat :=
  fun x => if x = a then v else r x

/-- The driver computation type: state-passing over the bus, returning either
a value or the transport error propagated verbatim. -/
@[reducible] def DriverM (α : Type) : Type := Bus → Except Nat α × Bus

instance : Monad DriverM where
  pure a := fun b => (Except.ok a, b)
  bind m f := fun b =>
    match m b with
    | (Except.ok a, b1) => f a b1
    | (Except.error e, b1) => (Except.error e, b1)

/-- One write-then-read bus transaction (the `write_read` of the transport):
returns the addressed byte, or the scheduled transport error. -/
def busWriteRead (reg : Nat) : DriverM Nat := fun b =>
  match b.failAt b.tick with
  | some e => (Except.error e, b)
  | none => (Except.ok (b.regs reg), { b with tick := b.tick + 1 })

/-- One write bus transaction carrying `[reg, v]` (the `write` of the
transport): stores the byte, or returns the scheduled transport error. -/
def busWrite (reg v : Nat) : DriverM Unit := fun b =>
  match b.failAt b.tick with
  | some e => (Except.error e, b)
  | none =>
      (Except.ok (), { b with regs := updateReg b.regs reg v, tick := b.tick + 1 })

/-- `read_register` (src lines 153-157). -/
def read_register (register : RegisterTable) : DriverM Nat :=
  busWriteRead register.toNat

/-- `write_register` (src lines 751-754). -/
def write_register (register : RegisterTable) (data : Nat) : DriverM Unit :=
  busWrite register.toNat data

/-- `read_register_1bit` (src lines 167-170): `(data & (1 << bit)) == (1 << bit)`. -/
def read_register_1bit (register : RegisterTable) (bit : Nat) : DriverM Bool := do
  let data ← read_register register
  pure ((data &&& (1 <<< bit)) == (1 <<< bit))

/-- `sec` (src lines 176-179). -/
def sec : DriverM Nat := do
  let data ← read_register .CompatibleSEC
  pure (from_bcd (data &&& 0b01111111))

/-- `min` (src lines 185-188). -/
def min : DriverM Nat := do
  let data ← read_register .CompatibleMIN
  pure (from_bcd (data &&& 0b01111111))

/-- `hour` (src lines 194-197). -/
def hour : DriverM Nat := do
  let data ← read_register .CompatibleHOUR
  pure (from_bcd (data &&& 0b00111111))

/-- `day` (src lines 212-215). -/
def day : DriverM Nat := do
  let data ← read_register .CompatibleDAY
  pure (from_bcd (data &&& 0b00111111))

/-- `month` (src lines 221-224). -/
def month : DriverM Nat := do
  let data ← read_register .CompatibleMONTH
  pure (from_bcd (data &&& 0b00011111))

/-- `year` (src lines 230-233). -/
def year : DriverM Nat := do
  let data ← read_register .CompatibleYEAR
  pure (from_bcd data)

/-- Rust `!x` on u8 is the 8-bit complement; for `x < 256` this is `255 ^^^ x`. -/
def not8 (x : Nat) : Nat := 255 ^^^ x

/-- The read-modify-write byte computed by `set_bit` (src line 1010):
`current & !(1 << bit) | (data as u8) << bit`. -/
def rmwBit (current : Nat) (bit : Nat) (data : Bool) : Nat :=
  (current &&& not8 (1 <<< bit)) ||| (data.toNat <<< bit)

/-- `set_bit` (src lines 1008-1012): read, modify one bit, write back. -/
def set_bit (register : RegisterTable) (bit : Nat) (data : Bool) : DriverM Unit := do
  let current ← read_register register
  write_register register (rmwBit current bit data)

/-- `set_sec` (src lines 763-765). -/
def set_sec (data : Nat) : DriverM Unit :=
  write_register .CompatibleSEC (to_bcd (data &&& 0b01111111))

/-- `set_min` (src lines 774-776). -/
def set_min (data : Nat) : DriverM Unit :=
  write_register .CompatibleMIN (to_bcd (data &&& 0b01111111))

/-- `set_hour` (src lines 785-787). -/
def set_hour (data : Nat) : DriverM Unit :=
  write_register .CompatibleHOUR (to_bcd (data &&& 0b00111111))

/-- `set_week` (src lines 796-798). -/
def set_week (data : Weekday) : DriverM Unit :=
  write_register .CompatibleWEEK (to_week data)

/-- `set_day` (src lines 807-809). -/
def set_day (data : Nat) : DriverM Unit :=
  write_register .CompatibleDAY (to_bcd (data &&& 0b00111111))

/-- `set_month` (src lines 818-820). -/
def set_month (data : Nat) : DriverM Unit :=
  write_register .CompatibleMONTH (to_bcd (data &&& 0b00011111))

/-- `set_year` (src lines 829-831). -/
def set_year (data : Nat) : DriverM Unit :=
  write_register .CompatibleYEAR (to_bcd (data &&& 0b11111111))

/-- `set_min_alarm` (src lines 852-854): BCD minute plus the enable flag in
bit 7. -/
def set_min_alarm (data : Nat) (enabled : Bool) : DriverM Unit :=
  write_register .CompatibleMinAlarm
    (to_bcd (data &&& 0b01111111) ||| (enabled.toNat <<< 7))

/-- `set_hour_alarm` (src lines 864-866). -/
def set_hour_alarm (data : Nat) (enabled : Bool) : DriverM Unit :=
  write_register .CompatibleHourAlarm
    (to_bcd (data &&& 0b00111111) ||| (enabled.toNat <<< 7))

/-- `set_week_alarm` (src lines 875-881): OR of the one-hot encodings of the
listed weekdays, written as a whole byte. -/
def set_week_alarm (data : List Weekday) : DriverM Unit :=
  write_register .CompatibleWeekDayAlarm
    (data.foldl (fun value d => value ||| to_week d) 0)

/-- `fsel` (src lines 502-505): extract bits 2-3 of the extension register. -/
def fsel : DriverM Nat := do
  let data ← read_register .CompatibleExtensionRegister
  pure ((data &&& 0b00001100) >>> 2)

/-- `fout_frequency` (src lines 511-520): decode the 2-bit field; codes `0b00`
and `0b11` both map to the 32.768 kHz variant; the dead `todo!()` arm is
modelled as `none`. -/
def fout_frequency : DriverM (Option FoutFrequency) := do
  let current ← fsel
  pure (match current with
    | 0b00 => some .FoutFrequency32_768kHz
    | 0b01 => some .FoutFrequency1024Hz
    | 0b10 => some .FoutFrequency1Hz
    | 0b11 => some .FoutFrequency32_768kHz
    | _ => none)

/-- `set_fsel` (src lines 1125-1129): masked read-modify-write of bits 2-3. -/
def set_fsel (data : Nat) : DriverM Unit := do
  let current ← read_register .CompatibleExtensionRegister
  write_register .CompatibleExtensionRegister
    ((current &&& 0b11110011) ||| (data <<< 2))

/-- `set_fout_frequency` (src lines 1138-1140): encode via the enum
discriminant. -/
def set_fout_frequency (data : FoutFrequency) : DriverM Unit :=
  set_fsel data.toNat

/-- `set_test` (src lines 1032-1034). -/
def set_test (data : Bool) : DriverM Unit :=
  set_bit .CompatibleExtensionRegister 7 data

/-- `set_te` (src lines 1076-1078). -/
def set_te (data : Bool) : DriverM Unit :=
  set_bit .CompatibleExtensionRegister 4 data

/-- `set_fsel1` (src lines 1103-1105). -/
def set_fsel1 (data : Bool) : DriverM Unit :=
  set_bit .CompatibleExtensionRegister 3 data

/-- `set_fsel0` (src lines 1114-1116). -/
def set_fsel0 (data : Bool) : DriverM Unit :=
  set_bit .CompatibleExtensionRegister 2 data

/-- `set_vlf` (src lines 1248-1250): clears the voltage-low flag. -/
def set_vlf : DriverM Unit :=
  set_bit .CompatibleFlagRegister 1 false

/-- `set_vdet` (src lines 1264-1266): clears the voltage-detect flag. -/
def set_vdet : DriverM Unit :=
  set_bit .CompatibleFlagRegister 0 false

/-- `set_uie` (src lines 1329-1331). -/
def set_uie (data : Bool) : DriverM Unit :=
  set_bit .CompatibleControlRegister 5 data

/-- `set_tie` (src lines 1351-1353). -/
def set_tie (data : Bool) : DriverM Unit :=
  set_bit .CompatibleControlRegister 4 data

/-- `set_aie` (src lines 1378-1380). -/
def set_aie (data : Bool) : DriverM Unit :=
  set_bit .CompatibleControlRegister 3 data

/-- `set_vdetoff` (src lines 1416-1418). -/
def set_vdetoff (data : Bool) : DriverM Unit :=
  set_bit .ExtendedBackupFunction 3 data

/-- `set_voltage_detector_off` (src lines 1427-1429): alias for `set_vdetoff`. -/
def set_voltage_detector_off (data : Bool) : DriverM Unit :=
  set_vdetoff data

/-- `set_swoff` (src lines 1438-1440). -/
def set_swoff (data : Bool) : DriverM Unit :=
  set_bit .ExtendedBackupFunction 2 data

/-- `set_switch_off` (src lines 1449-1451): alias for `set_swoff`. -/
def set_switch_off (data : Bool) : DriverM Unit :=
  set_swoff data

/-- `init` (src lines 938-954): the fixed power-on configuration sequence. -/
def init : DriverM Unit := do
  set_te false
  set_fsel0 false
  set_fsel1 false
  set_test false
  set_vdet
  set_vlf
  set_aie false
  set_tie false
  set_uie false
  set_voltage_detector_off false
  set_switch_off true

/-- Modelled from the spec: the external calendar capability's date type
(chrono `NaiveDate`), "providing year/month/day ... as plain integers". -/
structure Date where
  year : Nat
  month : Nat
  day : Nat
deriving DecidableEq

/-- Modelled from the spec: the external calendar capability's time-of-day
type (chrono `NaiveTime`), with whole seconds and a sub-second part. -/
structure Time where
  hour : Nat
  minute : Nat
  second : Nat
  nano : Nat
deriving DecidableEq

/-- Modelled from the spec: the external calendar capability's combined
date-time type (chrono `NaiveDateTime`). -/
structure NaiveDateTime where
  date : Date
  time : Time
deriving DecidableEq

/-- Gregorian leap-year rule of the calendar capability. -/
def isLeap (y : Nat) : Bool :=
  y % 4 == 0 && (y % 100 != 0 || y % 400 == 0)

/-- Length of a month in the proleptic Gregorian calendar. -/
def daysInMonth (y m : Nat) : Nat :=
  match m with
  | 1 => 31
  | 2 => if isLeap y then 29 else 28
  | 3 => 31
  | 4 => 30
  | 5 => 31
  | 6 => 30
  | 7 => 31
  | 8 => 31
  | 9 => 30
  | 10 => 31
  | 11 => 30
  | 12 => 31
  | _ => 0

/-- Modelled from the spec: the calendar capability "constructing a validated
date-time" — chrono `NaiveDate::from_ymd_opt`. -/
def from_ymd_opt (y m d : Nat) : Option Date :=
  if 1 ≤ m ∧ m ≤ 12 ∧ 1 ≤ d ∧ d ≤ daysInMonth y m then some ⟨y, m, d⟩ else none

/-- Modelled from the spec: chrono `NaiveTime::from_hms_opt`, valid exactly
for hour 0-23, minute 0-59, second 0-59 (whole seconds, zero sub-second). -/
def from_hms_opt (h m s : Nat) : Option Time :=
  if h < 24 ∧ m < 60 ∧ s < 60 then some ⟨h, m, s, 0⟩ else none

/-- A date is one that `from_ymd_opt` accepts. -/
def ValidDate (d : Date) : Prop :=
  1 ≤ d.month ∧ d.month ≤ 12 ∧ 1 ≤ d.day ∧ d.day ≤ daysInMonth d.year d.month

/-- A time of day that `from_hms_opt` accepts (sub-second part unconstrained). -/
def ValidTime (t : Time) : Prop :=
  t.hour < 24 ∧ t.minute < 60 ∧ t.second < 60

instance (d : Date) : Decidable (ValidDate d) := by unfold ValidDate; infer_instance

instance (t : Time) : Decidable (ValidTime t) := by unfold ValidTime; infer_instance

/-- Modelled from the spec: the calendar capability derives the weekday of a
date (chrono `Datelike::weekday`); Gregorian weekday by Zeller's congruence. -/
def Date.weekday (d : Date) : Weekday :=
  let yy := if d.month < 3 then d.year - 1 else d.year
  let mm := if d.month < 3 then d.month + 12 else d.month
  let k := yy % 100
  let j := yy / 100
  match (d.day + (13 * (mm + 1)) / 5 + k + k / 4 + j / 4 + 5 * j) % 7 with
  | 0 => .sat
  | 1 => .sun
  | 2 => .mon
  | 3 => .tue
  | 4 => .wed
  | 5 => .thu
  | _ => .fri

/-- `datetime` (src lines 960-977): six register reads, BCD decode, century
2000 hard-coded; an invalid date makes the Rust `.unwrap()` panic, modelled
as `none`; an invalid time falls back to midnight (the `from_hms_opt(0,0,0)`
re-construction in the source). -/
def datetime : DriverM (Option NaiveDateTime) := do
  let s ← sec
  let mi ← min
  let h ← hour
  let d ← day
  let mo ← month
  let yy ← year
  pure (match from_ymd_opt (2000 + yy) mo d with
    | none => none
    | some date =>
        some ⟨date,
          match from_hms_opt h mi s with
          | some t => t
          | none => ⟨0, 0, 0, 0⟩⟩)

/-- `set_datetime` (src lines 986-997): seven register writes in the fixed
order year, month, day, weekday, hour, minute, second. -/
def set_datetime (data : NaiveDateTime) : DriverM Unit := do
  set_year (data.date.year % 100)
  set_month data.date.month
  set_day data.date.day
  set_week data.date.weekday
  set_hour data.time.hour
  set_min data.time.minute
  set_sec data.time.second

/-- The seven `(register, byte)` writes issued by `set_datetime`, in order. -/
def dtWrites (data : NaiveDateTime) : List (RegisterTable × Nat) :=
  [(.CompatibleYEAR, to_bcd ((data.date.year % 100) &&& 0b11111111)),
   (.CompatibleMONTH, to_bcd (data.date.month &&& 0b00011111)),
   (.CompatibleDAY, to_bcd (data.date.day &&& 0b00111111)),
   (.CompatibleWEEK, to_week data.date.weekday),
   (.CompatibleHOUR, to_bcd (data.time.hour &&& 0b00111111)),
   (.CompatibleMIN, to_bcd (data.time.minute &&& 0b01111111)),
   (.CompatibleSEC, to_bcd (data.time.second &&& 0b01111111))]

/-- Effect on the register file of a list of plain register writes. -/
def applyWrites (l : List (RegisterTable × Nat)) (regs : Nat → Nat) : Nat → Nat :=
  l.foldl (fun r p => updateReg r p.1.toNat p.2) regs

/-- The eleven `(register, bit, value)` read-modify-write steps of `init`,
in order: disable timer, clear fout-select bits 0 and 1, clear test, clear
voltage-detect and voltage-low flags, disable alarm, timer and update
interrupts, clear the voltage-detector-off bit, set the switch-off bit. -/
def initSteps : List (RegisterTable × Nat × Bool) :=
  [(.CompatibleExtensionRegister, 4, false),
   (.CompatibleExtensionRegister, 2, false),
   (.CompatibleExtensionRegister, 3, false),
   (.CompatibleExtensionRegister, 7, false),
   (.CompatibleFlagRegister, 0, false),
   (.CompatibleFlagRegister, 1, false),
   (.CompatibleControlRegister, 3, false),
   (.CompatibleControlRegister, 4, false),
   (.CompatibleControlRegister, 5, false),
   (.ExtendedBackupFunction, 3, false),
   (.ExtendedBackupFunction, 2, true)]

/-- Effect on the register file of one completed read-modify-write bit step. -/
def applyStep (regs : Nat → Nat) (s : RegisterTable × Nat × Bool) : Nat → Nat :=
  updateReg regs s.1.toNat (rmwBit (regs s.1.toNat) s.2.1 s.2.2)

/-- Effect on the register file of a list of completed bit steps, in order. -/
def applySteps (l : List (RegisterTable × Nat × Bool)) (regs : Nat → Nat) : Nat → Nat :=
  l.foldl applyStep regs

/-! ## Helper lemmas shared by the claim proofs -/

/-- BCD round trip through the second/minute masks (`& 0x7F` on both sides). -/
theorem bcd_roundtrip_mask7 : ∀ n, n < 60 → from_bcd (to_bcd (n &&& 127) &&& 127) = n := by
  decide

/-- BCD round trip through the hour/day masks (`& 0x3F` on both sides). -/
theorem bcd_roundtrip_mask6 : ∀ n, n < 32 → from_bcd (to_bcd (n &&& 63) &&& 63) = n := by
  decide

/-- BCD round trip through the month masks (`& 0x1F` on both sides). -/
theorem bcd_roundtrip_mask5 : ∀ n, n < 13 → from_bcd (to_bcd (n &&& 31) &&& 31) = n := by
  decide

/-- BCD round trip for the year register (`& 0xFF` on write, unmasked read). -/
theorem bcd_roundtrip_year : ∀ n, n < 100 → from_bcd (to_bcd (n &&& 255)) = n := by
  decide

/-- Reading back the point just updated. -/
theorem updateReg_self (r : Nat → Nat) (a v : Nat) : updateReg r a v a = v := by
  simp [updateReg]

/-- `from_ymd_opt` succeeds exactly on valid dates. -/
theorem from_ymd_opt_valid (y m d : Nat) (h : ValidDate ⟨y, m, d⟩) :
    from_ymd_opt y m d = some ⟨y, m, d⟩ := if_pos h

/-- `from_hms_opt` on a valid time of day. -/
theorem from_hms_opt_valid (h m s : Nat) (hv : h < 24 ∧ m < 60 ∧ s < 60) :
    from_hms_opt h m s = some ⟨h, m, s, 0⟩ := if_pos hv

/-- `from_hms_opt` on an invalid time of day. -/
theorem from_hms_opt_invalid (h m s : Nat) (hv : ¬(h < 24 ∧ m < 60 ∧ s < 60)) :
    from_hms_opt h m s = none := if_neg hv

/-- Running `set_datetime` on a never-failing bus: seven writes, in order. -/
theorem set_datetime_run (dt : NaiveDateTime) (regs : Nat → Nat) (t : Nat) :
    set_datetime dt ⟨regs, t, noFail⟩ =
      (Except.ok (), ⟨applyWrites (dtWrites dt) regs, t + 7, noFail⟩) := rfl

/-- Running `datetime` on a never-failing bus: six reads and the pure
composition of the decoded fields. -/
theorem datetime_run (regs : Nat → Nat) (t : Nat) :
    datetime ⟨regs, t, noFail⟩ =
      (Except.ok
        (match from_ymd_opt (2000 + from_bcd (regs 6)) (from_bcd (regs 5 &&& 31))
            (from_bcd (regs 4 &&& 63)) with
         | none => none
         | some date =>
             some ⟨date,
               match from_hms_opt (from_bcd (regs 2 &&& 63)) (from_bcd (regs 1 &&& 127))
                   (from_bcd (regs 0 &&& 127)) with
               | some tt => tt
               | none => ⟨0, 0, 0, 0⟩⟩),
       ⟨regs, t + 6, noFail⟩) := by rfl

/-! ## Claim theorems -/

/-- C8: for every integer `n` with `0 ≤ n ≤ 99`, decoding the BCD encoding of
`n` returns `n`, with `to_bcd` computing `((n/10)<<4) | (n%10)` and `from_bcd`
computing `10*(byte>>4) + (byte & 0xF)`. -/
theorem bcd_decode_encode_roundtrip : ∀ n, n ≤ 99 → from_bcd (to_bcd n) = n := by
  decide

/-- Witness for C8 at `n = 42`. -/
theorem bcd_decode_encode_roundtrip_witness : from_bcd (to_bcd 42) = 42 :=
  bcd_decode_encode_roundtrip 42 (by decide)

set_option maxRecDepth 4000 in
/-- C3: the weekday decoder maps exactly the seven one-hot bytes
`0b0000001` … `0b1000000` to Sunday … Saturday in bit order; every other byte
— in particular every byte whose bit-count among bits 0-6 is not 1 — hits the
fatal `todo!()` arm (modelled as `none`) instead of silently returning a day. -/
theorem from_week_one_hot_exact :
    (from_week 0b00000001 = some Weekday.sun ∧
     from_week 0b00000010 = some Weekday.mon ∧
     from_week 0b00000100 = some Weekday.tue ∧
     from_week 0b00001000 = some Weekday.wed ∧
     from_week 0b00010000 = some Weekday.thu ∧
     from_week 0b00100000 = some Weekday.fri ∧
     from_week 0b01000000 = some Weekday.sat) ∧
    (∀ b, b < 256 → (∀ i, i < 7 → b ≠ 1 <<< i) → from_week b = none) ∧
    (∀ b, b < 256 → countBits7 b ≠ 1 → from_week b = none) := by
  refine ⟨by decide, by decide, by decide⟩

/-- Witness for C3: byte `0b00000011` (two bits set) is rejected. -/
theorem from_week_one_hot_exact_witness : from_week 3 = none :=
  from_week_one_hot_exact.2.2 3 (by decide) (by decide)

/-- Every month has at most 31 days. -/
theorem daysInMonth_le (y m : Nat) : daysInMonth y m ≤ 31 := by
  unfold daysInMonth
  split <;> try split
  all_goals decide

/-- C1: for every valid date-time with year 2000-2099, `set_datetime` followed
by `datetime` on a faithfully-storing, never-failing register file returns the
date-time truncated to whole seconds (the seven-write then six-read round
trip). -/
theorem set_datetime_datetime_roundtrip (regs : Nat → Nat) (t : Nat) (dt : NaiveDateTime)
    (hd : ValidDate dt.date) (ht : ValidTime dt.time)
    (hy1 : 2000 ≤ dt.date.year) (hy2 : dt.date.year ≤ 2099) :
    (set_datetime dt ⟨regs, t, noFail⟩).1 = Except.ok () ∧
    (datetime (set_datetime dt ⟨regs, t, noFail⟩).2).1 =
      Except.ok (some ⟨dt.date, ⟨dt.time.hour, dt.time.minute, dt.time.second, 0⟩⟩) := by
  obtain ⟨hm1, hm2, hd1, hd2⟩ := hd
  obtain ⟨hh, hmi, hs⟩ := ht
  refine ⟨rfl, ?_⟩
  rw [set_datetime_run]
  dsimp only
  rw [datetime_run]
  have e6 : applyWrites (dtWrites dt) regs 6 = to_bcd ((dt.date.year % 100) &&& 255) := rfl
  have e5 : applyWrites (dtWrites dt) regs 5 = to_bcd (dt.date.month &&& 31) := rfl
  have e4 : applyWrites (dtWrites dt) regs 4 = to_bcd (dt.date.day &&& 63) := rfl
  have e2 : applyWrites (dtWrites dt) regs 2 = to_bcd (dt.time.hour &&& 63) := rfl
  have e1 : applyWrites (dtWrites dt) regs 1 = to_bcd (dt.time.minute &&& 127) := rfl
  have e0 : applyWrites (dtWrites dt) regs 0 = to_bcd (dt.time.second &&& 127) := rfl
  rw [e6, e5, e4, e2, e1, e0]
  have b6 : from_bcd (to_bcd ((dt.date.year % 100) &&& 255)) = dt.date.year % 100 :=
    bcd_roundtrip_year _ (Nat.mod_lt _ (by omega))
  have b5 : from_bcd (to_bcd (dt.date.month &&& 31) &&& 31) = dt.date.month :=
    bcd_roundtrip_mask5 _ (by omega)
  have hdm := daysInMonth_le dt.date.year dt.date.month
  have b4 : from_bcd (to_bcd (dt.date.day &&& 63) &&& 63) = dt.date.day :=
    bcd_roundtrip_mask6 _ (by omega)
  have b2 : from_bcd (to_bcd (dt.time.hour &&& 63) &&& 63) = dt.time.hour :=
    bcd_roundtrip_mask6 _ (by omega)
  have b1 : from_bcd (to_bcd (dt.time.minute &&& 127) &&& 127) = dt.time.minute :=
    bcd_roundtrip_mask7 _ hmi
  have b0 : from_bcd (to_bcd (dt.time.second &&& 127) &&& 127) = dt.time.second :=
    bcd_roundtrip_mask7 _ hs
  rw [b6, b5, b4, b2, b1, b0]
  have hy : 2000 + dt.date.year % 100 = dt.date.year := by omega
  rw [hy, from_ymd_opt_valid dt.date.year dt.date.month dt.date.day ⟨hm1, hm2, hd1, hd2⟩,
    from_hms_opt_valid _ _ _ ⟨hh, hmi, hs⟩]

/-- Witness for C1: the spec's example date 2001-02-03 04:05:06 (with a
discarded sub-second part) round trips on an all-zero register file. -/
theorem set_datetime_datetime_roundtrip_witness :
    (set_datetime ⟨⟨2001, 2, 3⟩, ⟨4, 5, 6, 789⟩⟩ ⟨fun _ => 0, 0, noFail⟩).1 = Except.ok () ∧
    (datetime (set_datetime ⟨⟨2001, 2, 3⟩, ⟨4, 5, 6, 789⟩⟩ ⟨fun _ => 0, 0, noFail⟩).2).1 =
      Except.ok (some ⟨⟨2001, 2, 3⟩, ⟨4, 5, 6, 0⟩⟩) :=
  set_datetime_datetime_roundtrip (fun _ => 0) 0 ⟨⟨2001, 2, 3⟩, ⟨4, 5, 6, 789⟩⟩
    (by decide) (by decide) (by decide) (by decide)

/-- C5: on any reliable register state whose day/month/year registers decode
to a valid calendar date, `datetime` returns the year as 2000 plus the BCD
year; when the decoded hour/minute/second are not a valid time of day it
returns midnight instead of failing, with the date fields unaffected. -/
theorem datetime_reads_spec (regs : Nat → Nat) (t : Nat)
    (hd : ValidDate ⟨2000 + from_bcd (regs 6), from_bcd (regs 5 &&& 31),
      from_bcd (regs 4 &&& 63)⟩) :
    (datetime ⟨regs, t, noFail⟩).1 =
      Except.ok (some ⟨⟨2000 + from_bcd (regs 6), from_bcd (regs 5 &&& 31),
          from_bcd (regs 4 &&& 63)⟩,
        if from_bcd (regs 2 &&& 63) < 24 ∧ from_bcd (regs 1 &&& 127) < 60 ∧
            from_bcd (regs 0 &&& 127) < 60
        then ⟨from_bcd (regs 2 &&& 63), from_bcd (regs 1 &&& 127), from_bcd (regs 0 &&& 127), 0⟩
        else ⟨0, 0, 0, 0⟩⟩) := by
  rw [datetime_run]
  dsimp only
  rw [from_ymd_opt_valid _ _ _ hd]
  by_cases hvt : from_bcd (regs 2 &&& 63) < 24 ∧ from_bcd (regs 1 &&& 127) < 60 ∧
      from_bcd (regs 0 &&& 127) < 60
  · rw [from_hms_opt_valid _ _ _ hvt, if_pos hvt]
  · rw [from_hms_opt_invalid _ _ _ hvt, if_neg hvt]

/-- Witness for C5: hour byte `0x29` decodes to 29, an invalid hour, so the
returned time falls back to midnight while the date 2001-02-03 is kept. -/
theorem datetime_reads_spec_witness :
    (datetime ⟨(fun a => if a = 2 then 0x29 else if a = 4 then 3 else if a = 5 then 2
        else if a = 6 then 1 else 0), 0, noFail⟩).1 =
      Except.ok (some ⟨⟨2001, 2, 3⟩, ⟨0, 0, 0, 0⟩⟩) :=
  datetime_reads_spec
    (fun a => if a = 2 then 0x29 else if a = 4 then 3 else if a = 5 then 2
      else if a = 6 then 1 else 0) 0 (by decide)

/-- C9: a register state whose time registers are valid (all zero, midnight)
but whose month register holds `0x00` decodes to month 0, an invalid calendar
date, and `datetime` hits the `.unwrap()` panic on the date construction
(modelled as `Except.ok none`) — neither a returned value nor a transport
error. -/
theorem datetime_invalid_date_panics :
    (datetime ⟨(fun a => if a = 4 then 1 else 0), 0, noFail⟩).1 = Except.ok none ∧
    from_hms_opt (from_bcd 0) (from_bcd 0) (from_bcd 0) = some ⟨0, 0, 0, 0⟩ ∧
    from_ymd_opt 2000 0 1 = none := by
  refine ⟨rfl, rfl, rfl⟩

set_option maxRecDepth 4000 in
/-- The modified byte reads back the written bit: testing the target bit of
the read-modify-write result recovers the written boolean. -/
theorem rmw_read_back : ∀ c, c < 256 → ∀ i, i < 8 → ∀ v : Bool,
    ((rmwBit c i v &&& (1 <<< i)) == (1 <<< i)) = v := by decide

set_option maxRecDepth 4000 in
/-- The read-modify-write result agrees with the old byte on every other bit. -/
theorem rmw_frame : ∀ c, c < 256 → ∀ i, i < 8 → ∀ v : Bool, ∀ j, j < 8 → j ≠ i →
    (rmwBit c i v).testBit j = c.testBit j := by decide

/-- C2: `set_bit` writes back `(current & !(1<<bit)) | (v<<bit)` after one
read, so a subsequent `read_register_1bit` returns `v`, and every other bit
of the register is bit-for-bit identical to the value read before the call. -/
theorem set_bit_read_bit_spec (regs : Nat → Nat) (t : Nat) (reg : RegisterTable)
    (bit : Nat) (v : Bool) (hbit : bit < 8) (hbyte : regs reg.toNat < 256) :
    set_bit reg bit v ⟨regs, t, noFail⟩ =
      (Except.ok (), ⟨updateReg regs reg.toNat (rmwBit (regs reg.toNat) bit v), t + 2, noFail⟩) ∧
    (read_register_1bit reg bit (set_bit reg bit v ⟨regs, t, noFail⟩).2).1 = Except.ok v ∧
    (∀ j, j < 8 → j ≠ bit →
      (rmwBit (regs reg.toNat) bit v).testBit j = (regs reg.toNat).testBit j) := by
  refine ⟨rfl, ?_, fun j hj hne => rmw_frame _ hbyte _ hbit v j hj hne⟩
  have h1 : (read_register_1bit reg bit (set_bit reg bit v ⟨regs, t, noFail⟩).2).1 =
      Except.ok ((updateReg regs reg.toNat (rmwBit (regs reg.toNat) bit v) reg.toNat &&&
        (1 <<< bit)) == (1 <<< bit)) := rfl
  rw [h1, updateReg_self]
  exact congrArg Except.ok (rmw_read_back _ hbyte _ hbit v)

/-- Witness for C2: setting bit 4 of the flag register holding `0b10101010`
reads back `true`. -/
theorem set_bit_read_bit_spec_witness :
    (read_register_1bit RegisterTable.CompatibleFlagRegister 4
      (set_bit RegisterTable.CompatibleFlagRegister 4 true ⟨fun _ => 0b10101010, 0, noFail⟩).2).1 =
      Except.ok true :=
  (set_bit_read_bit_spec (fun _ => 0b10101010) 0 RegisterTable.CompatibleFlagRegister 4 true
    (by decide) (by decide)).2.1

set_option maxRecDepth 4000 in
/-- Clearing the fout field with the `0b11110011` mask leaves field code
`0b00` in bits 2-3 of the written byte. -/
theorem fsel_field_cleared : ∀ x, x < 256 →
    (((x &&& 0b11110011) ||| (0 <<< 2)) &&& 0b00001100) >>> 2 = 0b00 := by decide

/-- C4: fout-frequency field codes `0b00` and `0b11` both decode to the
32.768 kHz variant (the duplicate mapping is kept, not treated as invalid),
and encoding that variant via `set_fout_frequency` always writes field code
`0b00` into the fout bits. -/
theorem fout_frequency_duplicate_spec (regs : Nat → Nat) (t : Nat) (hbyte : regs 13 < 256) :
    ((regs 13 &&& 0b00001100) >>> 2 = 0b00 →
      (fout_frequency ⟨regs, t, noFail⟩).1 =
        Except.ok (some FoutFrequency.FoutFrequency32_768kHz)) ∧
    ((regs 13 &&& 0b00001100) >>> 2 = 0b11 →
      (fout_frequency ⟨regs, t, noFail⟩).1 =
        Except.ok (some FoutFrequency.FoutFrequency32_768kHz)) ∧
    set_fout_frequency FoutFrequency.FoutFrequency32_768kHz ⟨regs, t, noFail⟩ =
      (Except.ok (), ⟨updateReg regs 13 ((regs 13 &&& 0b11110011) ||| (0 <<< 2)), t + 2, noFail⟩) ∧
    (((regs 13 &&& 0b11110011) ||| (0 <<< 2)) &&& 0b00001100) >>> 2 = 0b00 := by
  have h0 : (fout_frequency ⟨regs, t, noFail⟩).1 =
      Except.ok (match (regs 13 &&& 0b00001100) >>> 2 with
        | 0b00 => some FoutFrequency.FoutFrequency32_768kHz
        | 0b01 => some FoutFrequency.FoutFrequency1024Hz
        | 0b10 => some FoutFrequency.FoutFrequency1Hz
        | 0b11 => some FoutFrequency.FoutFrequency32_768kHz
        | _ => none) := rfl
  refine ⟨fun h => ?_, fun h => ?_, rfl, fsel_field_cleared _ hbyte⟩
  · rw [h0, h]
  · rw [h0, h]

/-- Witness for C4: with the extension register holding `0b00001100` the
field code is `0b11` and the decode still yields the 32.768 kHz variant. -/
theorem fout_frequency_duplicate_spec_witness :
    (fout_frequency ⟨fun _ => 0b00001100, 0, noFail⟩).1 =
      Except.ok (some FoutFrequency.FoutFrequency32_768kHz) :=
  (fout_frequency_duplicate_spec (fun _ => 0b00001100) 0 (by decide)).2.1 (by decide)

set_option maxRecDepth 4000 in
/-- ORing in a one-hot weekday encoding keeps the byte below 128. -/
theorem or_week_lt (d : Weekday) : ∀ acc, acc < 128 → acc ||| to_week d < 128 := by
  cases d <;> decide

set_option maxRecDepth 4000 in
/-- Bit 7 of a byte below 128 is clear. -/
theorem testBit7_of_lt : ∀ x, x < 128 → Nat.testBit x 7 = false := by decide

/-- The OR-fold of one-hot weekday encodings stays below 128. -/
theorem week_alarm_value_lt (l : List Weekday) :
    ∀ acc, acc < 128 → l.foldl (fun value d => value ||| to_week d) acc < 128 := by
  induction l with
  | nil => intro acc h; simpa using h
  | cons d rest ih => intro acc h; exact ih _ (or_week_lt d acc h)

/-- C10: `set_week_alarm` writes to the week-day-alarm register exactly the
OR of the one-hot encodings of the listed weekdays, with bit 7 (the
alarm-enable bit) always written as 0 — unconditionally clearing the enable
bit — unlike `set_min_alarm`, whose written bit 7 equals its explicit
`enabled` flag. -/
theorem set_week_alarm_spec (regs : Nat → Nat) (t : Nat) (l : List Weekday) :
    set_week_alarm l ⟨regs, t, noFail⟩ =
      (Except.ok (),
        ⟨updateReg regs 10 (l.foldl (fun value d => value ||| to_week d) 0), t + 1, noFail⟩) ∧
    (l.foldl (fun value d => value ||| to_week d) 0).testBit 7 = false ∧
    (∀ m, m < 60 → ∀ en : Bool,
      (to_bcd (m &&& 0b01111111) ||| (en.toNat <<< 7)).testBit 7 = en) := by
  refine ⟨rfl, testBit7_of_lt _ (week_alarm_value_lt l 0 (by decide)), by decide⟩

/-- Witness for C10: the alarm-enable bit of the byte written for the list
Monday, Wednesday is clear, while `set_min_alarm` for minute 30 with the flag
set writes bit 7 high. -/
theorem set_week_alarm_spec_witness :
    ([Weekday.mon, Weekday.wed].foldl (fun value d => value ||| to_week d) 0).testBit 7 = false ∧
    (to_bcd (30 &&& 0b01111111) ||| (Bool.toNat true <<< 7)).testBit 7 = true :=
  ⟨(set_week_alarm_spec (fun _ => 0) 0 [Weekday.mon, Weekday.wed]).2.1,
   (set_week_alarm_spec (fun _ => 0) 0 [Weekday.mon, Weekday.wed]).2.2 30 (by decide) true⟩

/-- C6: `init` performs exactly the fixed ordered sequence of eleven
read-modify-write field steps of `initSteps` (twenty-two bus transactions);
if transaction `j` fails, the sequence aborts immediately with that step's
error: exactly the `j / 2` completed steps are applied to the register file,
`j` transactions have run, and nothing further is written. -/
theorem init_fixed_sequence (regs : Nat → Nat) (t : Nat) :
    init ⟨regs, t, noFail⟩ = (Except.ok (), ⟨applySteps initSteps regs, t + 22, noFail⟩) ∧
    (∀ j, j < 22 → ∀ e,
      init ⟨regs, 0, failOnlyAt j e⟩ =
        (Except.error e, ⟨applySteps (initSteps.take (j / 2)) regs, j, failOnlyAt j e⟩)) := by
  refine ⟨rfl, ?_⟩
  intro j hj e
  interval_cases j <;> rfl

/-- Witness for C6: failing the fourth bus transaction (the write of the
second step) aborts `init` with that error after exactly one completed step. -/
theorem init_fixed_sequence_witness :
    init ⟨fun _ => 0xFF, 0, failOnlyAt 3 7⟩ =
      (Except.error 7, ⟨applySteps (initSteps.take 1) (fun _ => 0xFF), 3, failOnlyAt 3 7⟩) :=
  (init_fixed_sequence (fun _ => 0xFF) 0).2 3 (by decide) 7

/-- C7: if write transaction `j` of `set_datetime` fails, the operation
returns exactly that transport error; the register file holds precisely the
first `j` writes of `dtWrites` (already-written registers keep their new
values, no rollback), and no later register is written. -/
theorem set_datetime_partial_failure (regs : Nat → Nat) (dt : NaiveDateTime) :
    ∀ j, j < 7 → ∀ e,
      set_datetime dt ⟨regs, 0, failOnlyAt j e⟩ =
        (Except.error e, ⟨applyWrites ((dtWrites dt).take j) regs, j, failOnlyAt j e⟩) := by
  intro j hj e
  interval_cases j <;> rfl

/-- Witness for C7: failing the third write (the day register) leaves the
year and month writes visible and surfaces error 5. -/
theorem set_datetime_partial_failure_witness :
    set_datetime ⟨⟨2001, 2, 3⟩, ⟨4, 5, 6, 0⟩⟩ ⟨fun _ => 0, 0, failOnlyAt 2 5⟩ =
      (Except.error 5,
        ⟨applyWrites ((dtWrites ⟨⟨2001, 2, 3⟩, ⟨4, 5, 6, 0⟩⟩).take 2) (fun _ => 0), 2,
          failOnlyAt 2 5⟩) :=
  set_datetime_partial_failure (fun _ => 0) ⟨⟨2001, 2, 3⟩, ⟨4, 5, 6, 0⟩⟩ 2 (by decide) 5

end Rx8900
